import Mathlib

/-!
Verification of the two DirectX 12 sample applications in this repository
(`samples/triangle/triangle.cpp` and `src/samples/tiny/main.cpp`) against their
natural-language specification.

The two samples are shallowly embedded as follows.

* Calls into the native graphics API and the OS are recorded as values of the
  inductive type `Event`; each per-frame `draw` (and the one-time
  `initializeD3d`) is a pure function producing the list of events it would
  issue, in program order.
* The mutable globals that the per-frame code reads and writes (`frameIndex`,
  `swapFenceCounter`, `swapFenceWaitValue[kFrameCount]`) form the `State`
  structure.  `swapFenceCounter` is a C++ `uint64_t`, so every increment is
  taken modulo `2 ^ 64` (`U64`).
* The GPU / OS side of a frame is an oracle `FrameInput`: the back-buffer
  index returned by `IDXGISwapChain::GetCurrentBackBufferIndex`, the fence
  value returned by `ID3D12Fence::GetCompletedValue`, and the fence value
  that has completed by the time `WaitForSingleObjectEx` returns.  The
  constraints the real fence and event objects impose on those three numbers
  are the predicate `ValidInput`.
* `readShader` is embedded over an abstract read-only filesystem
  `List String → Option (List Nat)` mapping a path (as a component list) to
  the byte contents of the file stored there; `none` means the file cannot be
  opened.  Shader bytes are modelled as `Nat`.
* The four floating-point clear-color literals `{0.0f, 0.2f, 0.4f, 1.0f}`
  (and the depth clear value `1.0f`) are represented by the rational values
  of the source literals; the samples only ever pass these constants through
  to the API, no floating-point arithmetic is performed on them.

Both samples share the per-frame fence logic verbatim: `triangle.cpp` has it
as `waitGpu(bool forceWait = false)` (lines 102-114) and `main.cpp` inlines
the `forceWait = false` instance at the end of `draw` (lines 117-127).  The
shared functions `stepState`, `completedAfter`, `needWait` and `syncEvents`
below embed those lines once, parameterised by `forceWait`; the tiny sample
always instantiates `forceWait := false` (its inline condition has no
`|| forceWait` disjunct, which is equivalent to `... || false`).
-/

/-- The modulus of the C++ `uint64_t` type of `swapFenceCounter`,
`swapFenceWaitValue[]` and the fence values. -/
def U64 : Nat := 2 ^ 64

/-- `const int32_t kFrameCount = 3;` — identical in both samples
(triangle.cpp line 5, main.cpp line 5). -/
def kFrameCount : Nat := 3

/-- The two COM result codes the samples produce themselves
(`readShader` returns `file ? S_OK : E_FAIL`). -/
inductive HRESULT where
  | S_OK
  | E_FAIL
  deriving DecidableEq

/-- An RGBA clear color; the four `float` literals of the source are
represented by the rationals they denote. -/
structure Color where
  r : ℚ
  g : ℚ
  b : ℚ
  a : ℚ
  deriving DecidableEq

/-- Color part of `kClearRenderTarget = { kFrameFormat, {0.0f, 0.2f, 0.4f, 1.0f} }`
(triangle.cpp line 8). -/
def kClearRenderTargetColor : Color := ⟨0, 2/10, 4/10, 1⟩

/-- `const float kClearColor[4] = {0.0f, 0.2f, 0.4f, 1.0f};` (main.cpp line 6). -/
def kClearColor : Color := ⟨0, 2/10, 4/10, 1⟩

/-- The two D3D12 resource states the samples transition their render targets
between. -/
inductive ResourceState where
  | present
  | renderTarget
  deriving DecidableEq

/-- The two descriptor-heap types the samples create. -/
inductive HeapType where
  | rtv
  | dsv
  deriving DecidableEq

/-- One call into the graphics API / OS, recorded in program order.
Fence objects and OS event handles carry a numeric id so that "which fence /
which event does this operation use" is observable in the trace; both samples
only ever create one of each, with id 0. -/
inductive Event where
  | createDevice
  | createCommandQueue
  | createSwapChain
  | createHeapDescriptor (count : Nat) (heapType : HeapType)
  | createRenderTargetViews
  | createCommittedResource
  | createDepthStencilView
  | createCommandAllocator (i : Nat)
  | createCommandList
  | closeList
  | createFence (fenceId initialValue : Nat)
  | createEventHandle (eventId : Nat)
  | readShaderCall (fileName : String) (openedPath : List String)
  | createRootSignature
  | createGraphicsPipelineState
  | resetAllocator (i : Nat)
  | resetCommandList (allocatorIndex : Nat)
  | resourceBarrier (stateBefore stateAfter : ResourceState)
  | setPipelineState
  | omSetRenderTargets (rtvHandle : Nat) (withDsv : Bool)
  | clearRenderTargetView (rtvHandle : Nat) (color : Color)
  | clearDepthStencilView (depth : ℚ) (stencil : Nat)
  | executeCommandLists (count : Nat)
  | present (syncInterval flags : Nat)
  | signal (fenceId value : Nat)
  | getCurrentBackBufferIndex (result : Nat)
  | getCompletedValue (fenceId result : Nat)
  | setEventOnCompletion (fenceId value eventId : Nat)
  | waitForSingleObjectEx (eventId : Nat)
  deriving DecidableEq

/-- The four phases the specification ascribes to one loop iteration
("record commands, submit, present, synchronize"); initialization-only events
map to `setup`. -/
inductive Phase where
  | setup
  | record
  | submit
  | present
  | sync
  deriving DecidableEq

/-- Phase classification of an event. -/
def phaseOf : Event → Phase
  | .resetAllocator _ => .record
  | .resetCommandList _ => .record
  | .resourceBarrier _ _ => .record
  | .setPipelineState => .record
  | .omSetRenderTargets _ _ => .record
  | .clearRenderTargetView _ _ => .record
  | .clearDepthStencilView _ _ => .record
  | .closeList => .record
  | .executeCommandLists _ => .submit
  | .present _ _ => .present
  | .signal _ _ => .sync
  | .getCurrentBackBufferIndex _ => .sync
  | .getCompletedValue _ _ => .sync
  | .setEventOnCompletion _ _ _ => .sync
  | .waitForSingleObjectEx _ => .sync
  | _ => .setup

/-- Whether an event is an `ID3D12Device::CreateFence` call. -/
def isCreateFence : Event → Bool
  | .createFence _ _ => true
  | _ => false

/-- Whether an event is a `CreateEvent` (OS event handle creation) call. -/
def isCreateEventHandle : Event → Bool
  | .createEventHandle _ => true
  | _ => false

/-- Whether an event is a call to `readShader`. -/
def isReadShader : Event → Bool
  | .readShaderCall _ _ => true
  | _ => false

/-- Whether an event is an `IDXGISwapChain::Present` call. -/
def isPresent : Event → Bool
  | .present _ _ => true
  | _ => false

/-- Whether an event is a `ClearDepthStencilView` call. -/
def isClearDepth : Event → Bool
  | .clearDepthStencilView _ _ => true
  | _ => false

/-- Every fence / event-handle synchronization operation in the event refers
to the fence with id 0 and the OS event with id 0 (the ones created during
initialization); non-synchronization events satisfy this vacuously. -/
def syncUsesHandle0 : Event → Bool
  | .signal fenceId _ => fenceId == 0
  | .getCompletedValue fenceId _ => fenceId == 0
  | .setEventOnCompletion fenceId _ eventId => fenceId == 0 && eventId == 0
  | .waitForSingleObjectEx eventId => eventId == 0
  | _ => true

/-- The mutable globals touched by the per-frame code, identical in both
samples: `int32_t frameIndex`, `uint64_t swapFenceCounter`,
`uint64_t swapFenceWaitValue[kFrameCount]` (triangle.cpp lines 24-27,
main.cpp lines 20-23). -/
structure State where
  frameIndex : Nat
  swapFenceCounter : Nat
  swapFenceWaitValue : List Nat
  deriving DecidableEq

/-- The state right after `initializeD3d` returns: `frameIndex` still 0, the
wait values still zero-initialized, and `swapFenceCounter` post-incremented
once by `createFence(swapFenceCounter++, ...)` (triangle.cpp line 84,
main.cpp line 64). -/
def postInitState : State :=
  { frameIndex := 0
    swapFenceCounter := (0 + 1) % U64
    swapFenceWaitValue := List.replicate kFrameCount 0 }

/-- The GPU/OS-determined values observed during one execution of the fence
logic: the next back-buffer index, the completed fence value read by the `if`
condition, and the completed fence value at the moment a blocking wait (if
any) returns. -/
structure FrameInput where
  nextFrameIndex : Nat
  completedAtCheck : Nat
  completedAfterWait : Nat
  deriving DecidableEq

/-- `swapFenceWaitValue` after `swapFenceWaitValue[frameIndex] = swapFenceCounter++`
(triangle.cpp line 105, main.cpp line 119). -/
def waitValueAfterSignal (s : State) : List Nat :=
  s.swapFenceWaitValue.set s.frameIndex s.swapFenceCounter

/-- The condition of the blocking-wait branch:
`swapFence->GetCompletedValue() < swapFenceWaitValue[nextFrameIndex] || forceWait`
(triangle.cpp line 109; main.cpp line 123 is the same without the
`|| forceWait` disjunct, i.e. the `forceWait = false` instance). -/
def needWait (forceWait : Bool) (s : State) (inp : FrameInput) : Bool :=
  decide (inp.completedAtCheck < (waitValueAfterSignal s).getD inp.nextFrameIndex 0) || forceWait

/-- The fence's completed value once the fence logic finishes: if the wait
branch was taken, the value at the moment `WaitForSingleObjectEx` returned,
otherwise the value read by the condition. -/
def completedAfter (forceWait : Bool) (s : State) (inp : FrameInput) : Nat :=
  if needWait forceWait s inp then inp.completedAfterWait else inp.completedAtCheck

/-- The API/OS calls made by the fence logic, in program order: `Signal`,
`GetCurrentBackBufferIndex`, `GetCompletedValue`, and — only when the wait
branch is taken — `SetEventOnCompletion` followed by `WaitForSingleObjectEx`
(triangle.cpp lines 104-111, main.cpp lines 118-125). -/
def syncEvents (forceWait : Bool) (s : State) (inp : FrameInput) : List Event :=
  [Event.signal 0 s.swapFenceCounter,
   Event.getCurrentBackBufferIndex inp.nextFrameIndex,
   Event.getCompletedValue 0 inp.completedAtCheck] ++
  (if needWait forceWait s inp then
    [Event.setEventOnCompletion 0 ((waitValueAfterSignal s).getD inp.nextFrameIndex 0) 0,
     Event.waitForSingleObjectEx 0]
   else [])

/-- The global-state update of the fence logic: record the signaled value at
the current frame's slot, post-increment the (64-bit) counter, and finally
`frameIndex = nextFrameIndex` (triangle.cpp lines 105-113, main.cpp
lines 119-127).  It does not depend on `forceWait`. -/
def stepState (s : State) (inp : FrameInput) : State :=
  { frameIndex := inp.nextFrameIndex
    swapFenceCounter := (s.swapFenceCounter + 1) % U64
    swapFenceWaitValue := waitValueAfterSignal s }

/-- `void waitGpu(bool forceWait = false)` (triangle.cpp lines 102-114):
returns the updated globals, the fence's completed value on exit, and the
calls issued. -/
def waitGpu (forceWait : Bool) (s : State) (inp : FrameInput) :
    State × Nat × List Event :=
  (stepState s inp, completedAfter forceWait s inp, syncEvents forceWait s inp)

/-- The `fastdx::onWindowDestroy` handler installed by the triangle sample's
`WinMain`: `[]() { waitGpu(true); }` (triangle.cpp lines 160-162). -/
def onWindowDestroy (s : State) (inp : FrameInput) : State × Nat × List Event :=
  waitGpu true s inp

/-- The constraints the real swap chain, fence and event objects place on the
observed `FrameInput` of one frame, relative to the pre-frame state `s` and
the fence's completed value `c` at the end of the previous frame:
the back-buffer index is in range; the completed value never decreases
(while the counter has not wrapped); and `WaitForSingleObjectEx` on the event
registered by `SetEventOnCompletion(v, e)` only returns once the fence has
completed `v` — here `v = swapFenceWaitValue[nextFrameIndex]` as recorded
after this frame's own signal. -/
structure ValidInput (inp : FrameInput) (s : State) (c : Nat) : Prop where
  next_lt : inp.nextFrameIndex < kFrameCount
  mono : c ≤ inp.completedAtCheck
  check_le : inp.completedAtCheck ≤ inp.completedAfterWait
  wait_le : (waitValueAfterSignal s).getD inp.nextFrameIndex 0 ≤ inp.completedAfterWait

/-- The states of the render loop (paired with the fence's completed value as
last observed): the state after `initializeD3d`, plus everything reachable by
complete `draw` iterations under valid GPU/OS observations.  Both samples
perform exactly this state update in `draw`. -/
inductive Reachable : State → Nat → Prop where
  | init : Reachable postInitState 0
  | step (s : State) (c : Nat) (inp : FrameInput)
      (h : Reachable s c) (hv : ValidInput inp s c) :
      Reachable (stepState s inp) (completedAfter false s inp)

/-! ### readShader -/

/-- `std::filesystem::path::parent_path` on a path represented as its list of
components. -/
def parentPath (p : List String) : List String := p.dropLast

/-- `outShaderData.resize(fileSize)`: keep the first `n` bytes, pad with
value-initialized (zero) bytes up to length `n`. -/
def resizeBuffer (buf : List Nat) (n : Nat) : List Nat :=
  buf.take n ++ List.replicate (n - buf.length) 0

/-- `file.read(outShaderData.data(), fileSize)`: overwrite the first `n`
bytes of `buf` with the first `n` bytes of the file contents. -/
def readBytes (contents buf : List Nat) (n : Nat) : List Nat :=
  contents.take n ++ buf.drop n

/-- Result of a `readShader` call: the returned `HRESULT`, the final contents
of the caller's `outShaderData` vector, and (ghost instrumentation) the path
that was passed to the `std::ifstream` constructor. -/
structure ReadShaderResult where
  hres : HRESULT
  outShaderData : List Nat
  openedPath : List String
  deriving DecidableEq

/-- `HRESULT readShader(LPCWSTR filePath, std::vector<uint8_t>& outShaderData)`
(triangle.cpp lines 29-41, main.cpp lines 25-37, byte-identical logic):
join the file name onto the parent directory of the module path, open it, and
if that succeeds resize the buffer to the file size and read that many bytes;
`modulePath` is the `GetModuleFileName` result and `fs` the filesystem.
A consistent, race-free filesystem is assumed: when the file opens,
`std::filesystem::file_size` agrees with the contents and the read of that
many bytes succeeds, so the final `return file ? S_OK : E_FAIL` sees a good
stream exactly when the open succeeded. -/
def readShader (modulePath : List String) (fs : List String → Option (List Nat))
    (filePath : String) (outShaderData : List Nat) : ReadShaderResult :=
  match fs (parentPath modulePath ++ [filePath]) with
  | some contents =>
      { hres := HRESULT.S_OK
        outShaderData := readBytes contents (resizeBuffer outShaderData contents.length)
          contents.length
        openedPath := parentPath modulePath ++ [filePath] }
  | none =>
      { hres := HRESULT.E_FAIL
        outShaderData := outShaderData
        openedPath := parentPath modulePath ++ [filePath] }

/-! ### Initialization -/

/-- The process environment `initializeD3d` runs in: the executable's module
path and the filesystem. -/
structure Env where
  modulePath : List String
  fs : List String → Option (List Nat)

/-- What `initializeD3d` produces: the global state, the two shader buffers,
and the API calls issued in program order. -/
structure InitResult where
  state : State
  vertexShader : List Nat
  pixelShader : List Nat
  events : List Event

/-- `initializeD3d` of the triangle sample (triangle.cpp lines 43-100):
device, queue, swap chain, an RTV heap of `kFrameCount` descriptors, the
render-target views, the depth-stencil resource and its one-descriptor DSV
heap and view, one command allocator per frame, the single command list
(closed immediately), the single fence (initial value `swapFenceCounter` = 0,
post-incremented) and the single OS event, the two shader reads, the root
signature and the pipeline state. -/
def triangleInitializeD3d (env : Env) : InitResult :=
  { state := postInitState
    vertexShader := (readShader env.modulePath env.fs "simple_vs.cso" []).outShaderData
    pixelShader := (readShader env.modulePath env.fs "simple_ps.cso" []).outShaderData
    events :=
      [Event.createDevice, Event.createCommandQueue, Event.createSwapChain,
       Event.createHeapDescriptor kFrameCount HeapType.rtv, Event.createRenderTargetViews,
       Event.createCommittedResource,
       Event.createHeapDescriptor 1 HeapType.dsv, Event.createDepthStencilView,
       Event.createCommandAllocator 0, Event.createCommandAllocator 1,
       Event.createCommandAllocator 2,
       Event.createCommandList, Event.closeList,
       Event.createFence 0 0, Event.createEventHandle 0,
       Event.readShaderCall "simple_vs.cso"
         (readShader env.modulePath env.fs "simple_vs.cso" []).openedPath,
       Event.readShaderCall "simple_ps.cso"
         (readShader env.modulePath env.fs "simple_ps.cso" []).openedPath,
       Event.createRootSignature, Event.createGraphicsPipelineState] }

/-- `initializeD3d` of the tiny sample (main.cpp lines 39-80): as the
triangle sample but with an RTV heap of 8 descriptors and no depth-stencil
resource, heap or view. -/
def tinyInitializeD3d (env : Env) : InitResult :=
  { state := postInitState
    vertexShader := (readShader env.modulePath env.fs "simple_vs.cso" []).outShaderData
    pixelShader := (readShader env.modulePath env.fs "simple_ps.cso" []).outShaderData
    events :=
      [Event.createDevice, Event.createCommandQueue, Event.createSwapChain,
       Event.createHeapDescriptor 8 HeapType.rtv, Event.createRenderTargetViews,
       Event.createCommandAllocator 0, Event.createCommandAllocator 1,
       Event.createCommandAllocator 2,
       Event.createCommandList, Event.closeList,
       Event.createFence 0 0, Event.createEventHandle 0,
       Event.readShaderCall "simple_vs.cso"
         (readShader env.modulePath env.fs "simple_vs.cso" []).openedPath,
       Event.readShaderCall "simple_ps.cso"
         (readShader env.modulePath env.fs "simple_ps.cso" []).openedPath,
       Event.createRootSignature, Event.createGraphicsPipelineState] }

/-! ### The per-frame draw functions -/

/-- The command-recording block of the triangle sample's `draw`
(triangle.cpp lines 126-147): reset the current frame's allocator, reset the
command list onto it, transition Present→RenderTarget, set the pipeline
state, bind the frame's RTV together with the DSV, clear the render target
and the depth buffer, transition back, and close the list.  `rtvBase` is
`GetCPUDescriptorHandleForHeapStart().ptr` and `descSize` the RTV descriptor
increment, so the frame's RTV handle is `rtvBase + frameIndex * descSize`
(line 120). -/
def triangleRecordEvents (rtvBase descSize : Nat) (s : State) : List Event :=
  [Event.resetAllocator s.frameIndex,
   Event.resetCommandList s.frameIndex,
   Event.resourceBarrier ResourceState.present ResourceState.renderTarget,
   Event.setPipelineState,
   Event.omSetRenderTargets (rtvBase + s.frameIndex * descSize) true,
   Event.clearRenderTargetView (rtvBase + s.frameIndex * descSize) kClearRenderTargetColor,
   Event.clearDepthStencilView 1 0,
   Event.resourceBarrier ResourceState.renderTarget ResourceState.present,
   Event.closeList]

/-- All calls of one triangle `draw` (triangle.cpp lines 116-155): record,
`ExecuteCommandLists` of the single list, `Present(1, 0)`, then `waitGpu()`. -/
def triangleDrawEvents (rtvBase descSize : Nat) (s : State) (inp : FrameInput) : List Event :=
  triangleRecordEvents rtvBase descSize s ++
  [Event.executeCommandLists 1, Event.present 1 0] ++
  syncEvents false s inp

/-- One triangle `draw` iteration: updated globals, the fence's completed
value at the end of the iteration, and the calls issued. -/
def triangleDraw (rtvBase descSize : Nat) (s : State) (inp : FrameInput) :
    State × Nat × List Event :=
  (stepState s inp, completedAfter false s inp, triangleDrawEvents rtvBase descSize s inp)

/-- The command-recording block of the tiny sample's `draw`
(main.cpp lines 83-110): as the triangle sample but with no depth-stencil
view bound (`OMSetRenderTargets(1, &rtvHandle, FALSE, nullptr)`, line 102)
and no depth clear. -/
def tinyRecordEvents (rtvBase descSize : Nat) (s : State) : List Event :=
  [Event.resetAllocator s.frameIndex,
   Event.resetCommandList s.frameIndex,
   Event.resourceBarrier ResourceState.present ResourceState.renderTarget,
   Event.setPipelineState,
   Event.omSetRenderTargets (rtvBase + s.frameIndex * descSize) false,
   Event.clearRenderTargetView (rtvBase + s.frameIndex * descSize) kClearColor,
   Event.resourceBarrier ResourceState.renderTarget ResourceState.present,
   Event.closeList]

/-- All calls of one tiny `draw` (main.cpp lines 82-128): record, submit,
`Present(1, 0)`, then the inline fence logic (lines 117-127, the
`forceWait = false` instance of the shared fence idiom). -/
def tinyDrawEvents (rtvBase descSize : Nat) (s : State) (inp : FrameInput) : List Event :=
  tinyRecordEvents rtvBase descSize s ++
  [Event.executeCommandLists 1, Event.present 1 0] ++
  syncEvents false s inp

/-- One tiny `draw` iteration. -/
def tinyDraw (rtvBase descSize : Nat) (s : State) (inp : FrameInput) :
    State × Nat × List Event :=
  (stepState s inp, completedAfter false s inp, tinyDrawEvents rtvBase descSize s inp)

/-! ### Spec-side model of the per-frame fence logic (for the refinement
claim C2) -/

/-- Spec-side model, following the specification's own wording of the
per-frame fence/wait logic: "signal the fence with the current counter value
and record that value as the current frame's wait value while incrementing
the counter; obtain the next frame index from the swap chain; if the fence's
completed value is less than the wait value recorded for the next frame
index, register an event on completion of that value and block on the OS
wait handle; finally set frameIndex to the next frame index."  Incrementing
is 64-bit, as the counter is a `uint64_t`. -/
def specPerFrameSync (s : State) (inp : FrameInput) : State × Nat × List Event :=
  let signaled := s.swapFenceCounter
  let recorded := s.swapFenceWaitValue.set s.frameIndex signaled
  let counter' := (signaled + 1) % U64
  let next := inp.nextFrameIndex
  let blocked := decide (inp.completedAtCheck < recorded.getD next 0)
  ({ frameIndex := next, swapFenceCounter := counter', swapFenceWaitValue := recorded },
   if blocked then inp.completedAfterWait else inp.completedAtCheck,
   [Event.signal 0 signaled,
    Event.getCurrentBackBufferIndex next,
    Event.getCompletedValue 0 inp.completedAtCheck] ++
   (if blocked then
     [Event.setEventOnCompletion 0 (recorded.getD next 0) 0,
      Event.waitForSingleObjectEx 0]
    else []))

/-! ### Iterated render loop (for the fence-counter claim C3) -/

/-- The global state after `n` complete `draw` iterations under the input
stream `ins` (both samples perform the same state update per iteration). -/
def stateAt (ins : Nat → FrameInput) : Nat → State
  | 0 => postInitState
  | n + 1 => stepState (stateAt ins n) (ins n)

/-- The value passed to `commandQueue->Signal` in frame `n` (0-based): the
counter's value at the top of that frame's fence logic. -/
def signalAt (ins : Nat → FrameInput) (n : Nat) : Nat :=
  (stateAt ins n).swapFenceCounter

/-- A concrete, fence-legal input stream: the swap chain always hands back
buffer 0, and the GPU has always completed the most recently signaled value
(capped at the largest representable fence value `U64 - 1`) by the time the
CPU checks. -/
def insB : Nat → FrameInput := fun n =>
  { nextFrameIndex := 0
    completedAtCheck := min (n + 1) (U64 - 1)
    completedAfterWait := min (n + 1) (U64 - 1) }

/-- The fence's completed value at the end of frame `n - 1` (i.e. carried
into frame `n`) under the input stream `insB`. -/
def cB : Nat → Nat := fun n => min n (U64 - 1)

/-! ## Helper lemmas -/

/-- When the wait branch is not taken, the completed value read by the
condition already covers the next frame's recorded wait value. -/
theorem needWait_eq_false_le (s : State) (inp : FrameInput)
    (h : needWait false s inp = false) :
    (waitValueAfterSignal s).getD inp.nextFrameIndex 0 ≤ inp.completedAtCheck := by
  simp only [needWait, Bool.or_false, decide_eq_false_iff_not, not_lt] at h
  exact h

/-- At the end of the fence logic the fence has completed at least the wait
value recorded for the frame that becomes current. -/
theorem completedAfter_ge (forceWait : Bool) (s : State) (c : Nat) (inp : FrameInput)
    (hv : ValidInput inp s c) :
    (waitValueAfterSignal s).getD inp.nextFrameIndex 0 ≤ completedAfter forceWait s inp := by
  unfold completedAfter
  cases hb : needWait forceWait s inp with
  | true => simpa using hv.wait_le
  | false =>
      cases forceWait with
      | true => simp [needWait] at hb
      | false => simpa using needWait_eq_false_le s inp hb

/-! ## C1 -/

/-- C1: for every reachable state of the render loop, the command allocator
reused at the top of `draw` is safe to reset: in both samples `draw` begins
with `commandAllocators[frameIndex]->Reset()`, and the preceding
synchronization step guaranteed that the fence's completed value `c` is at
least `swapFenceWaitValue[frameIndex]`, the value recorded when that frame's
work was submitted. -/
theorem allocator_reset_after_fence_wait (s : State) (c : Nat)
    (rtvBase descSize : Nat) (inp : FrameInput) (h : Reachable s c) :
    (triangleDrawEvents rtvBase descSize s inp).head? =
      some (Event.resetAllocator s.frameIndex) ∧
    (tinyDrawEvents rtvBase descSize s inp).head? =
      some (Event.resetAllocator s.frameIndex) ∧
    s.swapFenceWaitValue.getD s.frameIndex 0 ≤ c := by
  refine ⟨rfl, rfl, ?_⟩
  induction h with
  | init => simp [postInitState, kFrameCount]
  | step s' c' inp' h' hv ih =>
      show (waitValueAfterSignal s').getD inp'.nextFrameIndex 0 ≤
        completedAfter false s' inp'
      exact completedAfter_ge false s' c' inp' hv

/-- Witness for C1 at the initial state of the loop. -/
theorem allocator_reset_after_fence_wait_witness :
    (triangleDrawEvents 100 32 postInitState ⟨0, 0, 0⟩).head? =
      some (Event.resetAllocator postInitState.frameIndex) ∧
    (tinyDrawEvents 100 32 postInitState ⟨0, 0, 0⟩).head? =
      some (Event.resetAllocator postInitState.frameIndex) ∧
    postInitState.swapFenceWaitValue.getD postInitState.frameIndex 0 ≤ 0 :=
  allocator_reset_after_fence_wait postInitState 0 100 32 ⟨0, 0, 0⟩ Reachable.init

/-! ## C2 -/

/-- C2: the per-frame fence/wait logic performs exactly the steps the
specification lists, in that order: `waitGpu(false)` of the triangle sample
coincides with the spec-side model `specPerFrameSync`, and the tiny sample's
inline tail of `draw` (its state update, its final completed value, and its
calls after the 10 record/submit/present events) coincides with the same
model. -/
theorem per_frame_sync_matches_spec (rtvBase descSize : Nat) (s : State)
    (inp : FrameInput) :
    waitGpu false s inp = specPerFrameSync s inp ∧
    (tinyDraw rtvBase descSize s inp).1 = (specPerFrameSync s inp).1 ∧
    (tinyDraw rtvBase descSize s inp).2.1 = (specPerFrameSync s inp).2.1 ∧
    (tinyDrawEvents rtvBase descSize s inp).drop 10 = (specPerFrameSync s inp).2.2 := by
  have h : waitGpu false s inp = specPerFrameSync s inp := by
    simp only [waitGpu, specPerFrameSync, stepState, completedAfter, syncEvents,
      needWait, waitValueAfterSignal, Bool.or_false]
  refine ⟨h, ?_, ?_, ?_⟩
  · show (waitGpu false s inp).1 = (specPerFrameSync s inp).1
    rw [h]
  · show (waitGpu false s inp).2.1 = (specPerFrameSync s inp).2.1
    rw [h]
  · show (waitGpu false s inp).2.2 = (specPerFrameSync s inp).2.2
    rw [h]

/-! ## C6 and C9 -/

/-- C6: when the shader file cannot be opened, `readShader` returns `E_FAIL`
(not `S_OK`) and the output buffer is left exactly as it was — it is neither
resized nor written to. -/
theorem readShader_fail_keeps_buffer (modulePath : List String)
    (fs : List String → Option (List Nat)) (filePath : String) (buf : List Nat)
    (h : fs (parentPath modulePath ++ [filePath]) = none) :
    readShader modulePath fs filePath buf =
      { hres := HRESULT.E_FAIL, outShaderData := buf,
        openedPath := parentPath modulePath ++ [filePath] } := by
  simp [readShader, h]

/-- Witness for C6 on a one-file-less filesystem. -/
theorem readShader_fail_keeps_buffer_witness :
    (fun _ : List String => (none : Option (List Nat)))
      (parentPath ["bin", "demo.exe"] ++ ["simple_vs.cso"]) = none ∧
    readShader ["bin", "demo.exe"] (fun _ => none) "simple_vs.cso" [7, 9] =
      { hres := HRESULT.E_FAIL, outShaderData := [7, 9],
        openedPath := parentPath ["bin", "demo.exe"] ++ ["simple_vs.cso"] } :=
  ⟨rfl, readShader_fail_keeps_buffer ["bin", "demo.exe"] (fun _ => none)
    "simple_vs.cso" [7, 9] rfl⟩

/-- C9: when the shader file opens, the output buffer is resized to exactly
the file's size, that many bytes are read into it (so it ends up equal to the
file's contents), and `S_OK` is returned. -/
theorem readShader_success_reads_file (modulePath : List String)
    (fs : List String → Option (List Nat)) (filePath : String)
    (buf contents : List Nat)
    (h : fs (parentPath modulePath ++ [filePath]) = some contents) :
    (readShader modulePath fs filePath buf).hres = HRESULT.S_OK ∧
    (readShader modulePath fs filePath buf).outShaderData.length = contents.length ∧
    (readShader modulePath fs filePath buf).outShaderData = contents := by
  have hlen : (resizeBuffer buf contents.length).length = contents.length := by
    simp only [resizeBuffer, List.length_append, List.length_take, List.length_replicate]
    omega
  have hread : readBytes contents (resizeBuffer buf contents.length) contents.length
      = contents := by
    have hdrop : (resizeBuffer buf contents.length).drop contents.length = [] :=
      List.drop_eq_nil_of_le (le_of_eq hlen)
    unfold readBytes
    rw [List.take_length, hdrop, List.append_nil]
  refine ⟨?_, ?_, ?_⟩ <;> simp [readShader, h, hread]

/-- Witness for C9 on a filesystem holding one three-byte shader. -/
theorem readShader_success_reads_file_witness :
    (fun _ : List String => some [3, 1, 4])
      (parentPath ["bin", "demo.exe"] ++ ["simple_ps.cso"]) = some [3, 1, 4] ∧
    ((readShader ["bin", "demo.exe"] (fun _ => some [3, 1, 4]) "simple_ps.cso"
        [7]).hres = HRESULT.S_OK ∧
      (readShader ["bin", "demo.exe"] (fun _ => some [3, 1, 4]) "simple_ps.cso"
        [7]).outShaderData.length = [3, 1, 4].length ∧
      (readShader ["bin", "demo.exe"] (fun _ => some [3, 1, 4]) "simple_ps.cso"
        [7]).outShaderData = [3, 1, 4]) :=
  ⟨rfl, readShader_success_reads_file ["bin", "demo.exe"] (fun _ => some [3, 1, 4])
    "simple_ps.cso" [7] [3, 1, 4] rfl⟩

/-! ## C10 -/

/-- Reading index `i` of `l.set i v` (with default) yields `v` when `i` is in
range. -/
theorem getD_set_self (l : List Nat) (i v : Nat) (h : i < l.length) :
    (l.set i v).getD i 0 = v := by
  have h2 : i < (l.set i v).length := by simpa using h
  rw [List.getD_eq_getElem _ _ h2]
  exact List.getElem_set_self h2

/-- C10: with `forceWait = true` the blocking branch runs unconditionally —
whatever the completed value, the condition is true, and the calls after the
first three are exactly `SetEventOnCompletion` then `WaitForSingleObjectEx`;
the triangle sample's window-destroy handler is exactly `waitGpu(true)`; and
when no `Present` has intervened since the last frame (so the back-buffer
index still equals `frameIndex`), the value waited on is the one just
signaled, so on return the fence has completed every value signaled so far
and all in-flight GPU work is drained. -/
theorem force_wait_blocks_unconditionally (s : State) (c : Nat) (inp : FrameInput)
    (hv : ValidInput inp s c) (hfi : s.frameIndex < kFrameCount)
    (hlen : s.swapFenceWaitValue.length = kFrameCount) :
    onWindowDestroy s inp = waitGpu true s inp ∧
    needWait true s inp = true ∧
    (syncEvents true s inp).drop 3 =
      [Event.setEventOnCompletion 0 ((waitValueAfterSignal s).getD inp.nextFrameIndex 0) 0,
       Event.waitForSingleObjectEx 0] ∧
    (inp.nextFrameIndex = s.frameIndex →
      s.swapFenceCounter ≤ completedAfter true s inp) := by
  have hw : needWait true s inp = true := by
    simp [needWait]
  refine ⟨rfl, hw, ?_, ?_⟩
  · simp [syncEvents, hw]
  · intro hnext
    have hca : completedAfter true s inp = inp.completedAfterWait := by
      simp [completedAfter, hw]
    have hval : (waitValueAfterSignal s).getD inp.nextFrameIndex 0 = s.swapFenceCounter := by
      rw [hnext]
      exact getD_set_self s.swapFenceWaitValue s.frameIndex s.swapFenceCounter
        (by rw [hlen]; exact hfi)
    rw [hca, ← hval]
    exact hv.wait_le

/-- Witness for C10 just after initialization. -/
theorem force_wait_blocks_unconditionally_witness :
    ValidInput ⟨0, 0, 1⟩ postInitState 0 ∧
    postInitState.frameIndex < kFrameCount ∧
    postInitState.swapFenceWaitValue.length = kFrameCount ∧
    (onWindowDestroy postInitState ⟨0, 0, 1⟩ = waitGpu true postInitState ⟨0, 0, 1⟩ ∧
      needWait true postInitState ⟨0, 0, 1⟩ = true ∧
      (syncEvents true postInitState ⟨0, 0, 1⟩).drop 3 =
        [Event.setEventOnCompletion 0
          ((waitValueAfterSignal postInitState).getD (0 : Nat) 0) 0,
         Event.waitForSingleObjectEx 0] ∧
      ((0 : Nat) = postInitState.frameIndex →
        postInitState.swapFenceCounter ≤ completedAfter true postInitState ⟨0, 0, 1⟩)) :=
  ⟨⟨by decide, by decide, by decide, by decide⟩, by decide, by decide,
    force_wait_blocks_unconditionally postInitState 0 ⟨0, 0, 1⟩
      ⟨by decide, by decide, by decide, by decide⟩ (by decide) (by decide)⟩

/-! ## C4 -/

/-- C4: every `draw` iteration, in both samples, performs its phases in the
order record → submit → present → synchronize: the phase trace of one
iteration is nine (triangle) / eight (tiny) record events, then the single
submit, then the single present, and everything after that — at least the
three unconditional fence calls — is synchronization. -/
theorem draw_phases_in_order (rtvBase descSize : Nat) (s : State) (inp : FrameInput) :
    ((triangleDrawEvents rtvBase descSize s inp).map phaseOf).take 11 =
      List.replicate 9 Phase.record ++ [Phase.submit, Phase.present] ∧
    ((triangleDrawEvents rtvBase descSize s inp).map phaseOf).drop 11 =
      List.replicate ((triangleDrawEvents rtvBase descSize s inp).length - 11)
        Phase.sync ∧
    14 ≤ (triangleDrawEvents rtvBase descSize s inp).length ∧
    ((tinyDrawEvents rtvBase descSize s inp).map phaseOf).take 10 =
      List.replicate 8 Phase.record ++ [Phase.submit, Phase.present] ∧
    ((tinyDrawEvents rtvBase descSize s inp).map phaseOf).drop 10 =
      List.replicate ((tinyDrawEvents rtvBase descSize s inp).length - 10)
        Phase.sync ∧
    13 ≤ (tinyDrawEvents rtvBase descSize s inp).length := by
  cases hb : needWait false s inp <;>
    simp [triangleDrawEvents, triangleRecordEvents, tinyDrawEvents, tinyRecordEvents,
      syncEvents, hb, phaseOf, List.replicate]

/-! ## C5 -/

/-- C5: in every frame of each sample, the render target of the current frame
index (descriptor handle `rtvBase + frameIndex * descSize`) is cleared with
the constant clear color before the single `Present(1, 0)` call of the
iteration (position 5 versus 10 in the triangle trace, 5 versus 9 in the tiny
trace); the triangle sample additionally clears the depth buffer before
presenting, while the tiny sample records no depth clear at all and binds no
depth-stencil view. -/
theorem clear_before_present (rtvBase descSize : Nat) (s : State) (inp : FrameInput) :
    (triangleDrawEvents rtvBase descSize s inp)[5]? =
      some (Event.clearRenderTargetView (rtvBase + s.frameIndex * descSize)
        kClearRenderTargetColor) ∧
    (triangleDrawEvents rtvBase descSize s inp)[6]? =
      some (Event.clearDepthStencilView 1 0) ∧
    (triangleDrawEvents rtvBase descSize s inp)[10]? = some (Event.present 1 0) ∧
    ((triangleDrawEvents rtvBase descSize s inp).filter isPresent).length = 1 ∧
    (tinyDrawEvents rtvBase descSize s inp)[5]? =
      some (Event.clearRenderTargetView (rtvBase + s.frameIndex * descSize)
        kClearColor) ∧
    (tinyDrawEvents rtvBase descSize s inp)[9]? = some (Event.present 1 0) ∧
    ((tinyDrawEvents rtvBase descSize s inp).filter isPresent).length = 1 ∧
    (tinyDrawEvents rtvBase descSize s inp).filter isClearDepth = [] ∧
    (tinyDrawEvents rtvBase descSize s inp)[4]? =
      some (Event.omSetRenderTargets (rtvBase + s.frameIndex * descSize) false) := by
  cases hb : needWait false s inp <;>
    simp [triangleDrawEvents, triangleRecordEvents, tinyDrawEvents, tinyRecordEvents,
      syncEvents, hb, isPresent, isClearDepth]

/-! ## C7 -/

/-- The path `readShader` opens, whatever the filesystem holds there, is the
file name joined onto the parent directory of the module path. -/
theorem readShader_openedPath (modulePath : List String)
    (fs : List String → Option (List Nat)) (filePath : String) (buf : List Nat) :
    (readShader modulePath fs filePath buf).openedPath =
      parentPath modulePath ++ [filePath] := by
  rcases hfs : fs (parentPath modulePath ++ [filePath]) with _ | c <;>
    simp [readShader, hfs]

/-- C7: each sample's initialization loads exactly two shader files,
`simple_vs.cso` then `simple_ps.cso`, and every `readShader` call opens the
given relative file name joined onto the parent directory of the executable's
own module path. -/
theorem two_shader_files_relative_to_module (env : Env) (modulePath : List String)
    (fs : List String → Option (List Nat)) (filePath : String) (buf : List Nat) :
    (triangleInitializeD3d env).events.filter isReadShader =
      [Event.readShaderCall "simple_vs.cso"
        (parentPath env.modulePath ++ ["simple_vs.cso"]),
       Event.readShaderCall "simple_ps.cso"
        (parentPath env.modulePath ++ ["simple_ps.cso"])] ∧
    (tinyInitializeD3d env).events.filter isReadShader =
      [Event.readShaderCall "simple_vs.cso"
        (parentPath env.modulePath ++ ["simple_vs.cso"]),
       Event.readShaderCall "simple_ps.cso"
        (parentPath env.modulePath ++ ["simple_ps.cso"])] ∧
    (readShader modulePath fs filePath buf).openedPath =
      parentPath modulePath ++ [filePath] := by
  refine ⟨?_, ?_, readShader_openedPath modulePath fs filePath buf⟩ <;>
    simp [triangleInitializeD3d, tinyInitializeD3d, isReadShader,
      readShader_openedPath]

/-! ## C8 -/

/-- C8: each sample's initialization creates exactly one fence (initial value
0, id 0) and exactly one OS event handle (id 0); a `draw` iteration of either
sample creates no fence and no event handle, and every synchronization
operation it performs — including those of the triangle sample's
`waitGpu(true)` — uses that single fence and that single event handle. -/
theorem single_fence_single_event (env : Env) (rtvBase descSize : Nat)
    (s : State) (inp : FrameInput) :
    (triangleInitializeD3d env).events.filter isCreateFence =
      [Event.createFence 0 0] ∧
    (triangleInitializeD3d env).events.filter isCreateEventHandle =
      [Event.createEventHandle 0] ∧
    (tinyInitializeD3d env).events.filter isCreateFence = [Event.createFence 0 0] ∧
    (tinyInitializeD3d env).events.filter isCreateEventHandle =
      [Event.createEventHandle 0] ∧
    (triangleDrawEvents rtvBase descSize s inp).filter isCreateFence = [] ∧
    (triangleDrawEvents rtvBase descSize s inp).filter isCreateEventHandle = [] ∧
    (tinyDrawEvents rtvBase descSize s inp).filter isCreateFence = [] ∧
    (tinyDrawEvents rtvBase descSize s inp).filter isCreateEventHandle = [] ∧
    (triangleDrawEvents rtvBase descSize s inp).all syncUsesHandle0 = true ∧
    (tinyDrawEvents rtvBase descSize s inp).all syncUsesHandle0 = true ∧
    (syncEvents true s inp).all syncUsesHandle0 = true := by
  have htrue : needWait true s inp = true := by simp [needWait]
  cases hb : needWait false s inp <;>
    simp [triangleInitializeD3d, tinyInitializeD3d, triangleDrawEvents,
      triangleRecordEvents, tinyDrawEvents, tinyRecordEvents, syncEvents, hb, htrue,
      isCreateFence, isCreateEventHandle, syncUsesHandle0]

/-! ## C3 -/

/-- Closed form of the fence counter: after `n` complete frames it holds
`(n + 1) % 2^64`, independently of the GPU/OS observations (the fence logic
increments it unconditionally, once per frame, plus once at fence creation). -/
theorem swapFenceCounter_stateAt (ins : Nat → FrameInput) (n : Nat) :
    (stateAt ins n).swapFenceCounter = (n + 1) % U64 := by
  induction n with
  | zero => rfl
  | succ n ih =>
      show ((stateAt ins n).swapFenceCounter + 1) % U64 = (n + 1 + 1) % U64
      rw [ih, Nat.mod_add_mod]

/-- Under the input stream `insB` the swap chain always returns buffer 0, so
`frameIndex` stays 0. -/
theorem frameIndex_stateAt_insB (n : Nat) : (stateAt insB n).frameIndex = 0 := by
  cases n <;> rfl

/-- The wait-value array keeps its length `kFrameCount` across frames. -/
theorem length_waitValue_stateAt (ins : Nat → FrameInput) (n : Nat) :
    (stateAt ins n).swapFenceWaitValue.length = kFrameCount := by
  induction n with
  | zero => rfl
  | succ n ih =>
      show (waitValueAfterSignal (stateAt ins n)).length = kFrameCount
      simp [waitValueAfterSignal, List.length_set, ih]

/-- Every state of the `insB` trace is genuinely reachable in the render
loop, with the fence's completed value `cB n` carried between frames. -/
theorem reachable_stateAt_insB (n : Nat) : Reachable (stateAt insB n) (cB n) := by
  induction n with
  | zero =>
      have h0 : cB 0 = 0 := by simp [cB]
      rw [h0]
      exact Reachable.init
  | succ n ih =>
      have hv : ValidInput (insB n) (stateAt insB n) (cB n) := by
        refine ⟨?_, ?_, ?_, ?_⟩
        · show (insB n).nextFrameIndex < kFrameCount
          norm_num [insB, kFrameCount]
        · show cB n ≤ (insB n).completedAtCheck
          simp only [cB, insB]
          exact min_le_min (Nat.le_succ n) le_rfl
        · simp [insB]
        · have hget : (waitValueAfterSignal (stateAt insB n)).getD 0 0 =
              (stateAt insB n).swapFenceCounter := by
            unfold waitValueAfterSignal
            rw [frameIndex_stateAt_insB]
            exact getD_set_self _ 0 _
              (by rw [length_waitValue_stateAt]; norm_num [kFrameCount])
          show (waitValueAfterSignal (stateAt insB n)).getD 0 0 ≤ min (n + 1) (U64 - 1)
          rw [hget, swapFenceCounter_stateAt]
          refine le_min (Nat.mod_le _ _) ?_
          exact Nat.le_pred_of_lt (Nat.mod_lt _ (by norm_num [U64]))
      have h := Reachable.step _ _ _ ih hv
      have hc : completedAfter false (stateAt insB n) (insB n) = cB (n + 1) := by
        simp [completedAfter, insB, cB]
      rw [hc] at h
      exact h

/-- Counterexample to C3 as stated: `swapFenceCounter` is a `uint64_t`, so at
the 2^64-th increment it wraps.  Both states below are reachable (under the
fence-legal input stream `insB`), the second follows from the first by one
more frame, and the counter strictly decreases between them — from
`2^64 - 1` to 0 — so it is not monotonically increasing and the next signaled
value (0) is smaller than previously signaled ones. -/
theorem fence_counter_wraps_to_zero :
    Reachable (stateAt insB (U64 - 2)) (cB (U64 - 2)) ∧
    Reachable (stateAt insB (U64 - 1)) (cB (U64 - 1)) ∧
    stateAt insB (U64 - 1) = stepState (stateAt insB (U64 - 2)) (insB (U64 - 2)) ∧
    (stateAt insB (U64 - 2)).swapFenceCounter = U64 - 1 ∧
    (stateAt insB (U64 - 1)).swapFenceCounter = 0 ∧
    (stateAt insB (U64 - 1)).swapFenceCounter <
      (stateAt insB (U64 - 2)).swapFenceCounter := by
  have hU : (U64 : Nat) = 18446744073709551616 := by norm_num [U64]
  have h1 : U64 - 1 = (U64 - 2) + 1 := by omega
  have hc2 : (stateAt insB (U64 - 2)).swapFenceCounter = U64 - 1 := by
    rw [swapFenceCounter_stateAt, h1.symm, Nat.mod_eq_of_lt (by omega)]
  have hc1 : (stateAt insB (U64 - 1)).swapFenceCounter = 0 := by
    rw [swapFenceCounter_stateAt, show U64 - 1 + 1 = U64 by omega, Nat.mod_self]
  refine ⟨reachable_stateAt_insB _, reachable_stateAt_insB _, ?_, hc2, hc1, ?_⟩
  · rw [h1]
    rfl
  · rw [hc1, hc2]
    omega

/-- C3 (amended): the fence counter starts at 0 and is only ever incremented
— once at fence creation and once per frame when signaling — but as a
`uint64_t` the increment is modulo 2^64.  As long as fewer than 2^64
increments have occurred, every value signaled on the command queue is
strictly greater than all previously signaled values; only at the 2^64-th
increment does the counter wrap to 0, the sole way it can ever decrease. -/
theorem fence_counter_strictly_increasing (ins : Nat → FrameInput) (m n : Nat)
    (hmn : m < n) (hn : n + 1 < U64) :
    signalAt ins m < signalAt ins n := by
  unfold signalAt
  rw [swapFenceCounter_stateAt, swapFenceCounter_stateAt]
  have hm : m + 1 < U64 := by omega
  rw [Nat.mod_eq_of_lt hm, Nat.mod_eq_of_lt hn]
  omega

/-- Witness for the amended C3 at the first two frames. -/
theorem fence_counter_strictly_increasing_witness :
    0 < 1 ∧ 1 + 1 < U64 ∧ signalAt insB 0 < signalAt insB 1 :=
  ⟨by norm_num, by norm_num [U64],
    fence_counter_strictly_increasing insB 0 1 (by norm_num) (by norm_num [U64])⟩
